import Mathlib

/-!
Verification of the request-translation and response-normalization core of a
job-search tool server (`server.py`).  The single operation `scrape_jobs_tool`
normalizes a caller request into backend query parameters, enforces the
"Indeed requires Country" rule, invokes an external backend capability
(`scrape_jobs`, modelled as a function parameter), and normalizes the raw
records the backend returns into a uniform listing schema.
-/

namespace JobsSearch

/-- Python string `.lower()` (character-wise lowercasing, as applied to the
ASCII board identifiers used here). -/
def pyLower (s : String) : String := String.mk (s.data.map Char.toLower)

/-- Python truthiness of an `Optional[str]` value: `None` and the empty
string are falsy, every other string is truthy. -/
def pyTruthy : Option String → Bool
  | Option.none => false
  | Option.some s => s ≠ ""

/-- A dynamically-typed Python value as it appears in a raw listing record:
`None`, an integer, a string, or a boolean. -/
inductive Val where
  | none : Val
  | int (n : Int) : Val
  | str (s : String) : Val
  | bool (b : Bool) : Val
deriving DecidableEq, Repr

/-- Python truthiness of a `Val`: `None` is falsy, numbers are truthy iff
non-zero, strings iff non-empty, booleans are themselves. -/
def Val.truthy : Val → Bool
  | Val.none => false
  | Val.int n => n ≠ 0
  | Val.str s => s ≠ ""
  | Val.bool b => b

/-- Python `str()` coercion of a `Val` (f-string interpolation):
`str(None) = "None"`, integers print in decimal, strings unchanged,
booleans as `True`/`False`. -/
def pyStr : Val → String
  | Val.none => "None"
  | Val.int n => toString n
  | Val.str s => s
  | Val.bool b => if b then "True" else "False"

/-- A raw listing record as returned by the backend capability: one row of
the frame `scrape_jobs` returns, with the fields `scrape_jobs_tool` reads. -/
structure RawListing where
  title : Val
  company : Val
  location : Val
  date_posted : Val
  job_type : Val
  experience_range : Val
  is_remote : Val
  min_amount : Val
  max_amount : Val
  currency : Val
  interval : Val
  site : Val
  job_url : Val
  company_url : Val
deriving DecidableEq, Repr

/-- The keyword-argument bundle handed to the backend capability
(`scrape_kwargs` in the source: lines 78-85, optionally extended with
`country_indeed` at line 93). -/
structure ScrapeKwargs where
  site_name : List String
  search_term : Option String
  google_search_term : Option String
  location : Option String
  results_wanted : Int
  hours_old : Int
  country_indeed : Option String
deriving DecidableEq, Repr

/-- One uniform output listing (the dict built at lines 107-119). -/
structure NormalizedListing where
  Title : Val
  Company : Val
  Location : Val
  PostedDate : String
  JobType : Val
  ExperienceRange : Val
  Remote : Val
  Salary : Option String
  Board : Val
  JobURL : Val
  CompanyURL : Val
deriving DecidableEq, Repr

/-- The value returned to the caller: a count plus the ordered jobs list. -/
structure ResultSet where
  Count : Nat
  Jobs : List NormalizedListing
deriving DecidableEq, Repr

/-- Board normalization, line 66 of the source:
`site_name = [b.lower() for b in Boards]`. -/
def normalizeBoards (Boards : List String) : List String :=
  Boards.map pyLower

/-- Synthesized web-search query, lines 72-76 of the source: produced when
`"google" in site_name and RoleKeywords` (Python truthiness), with
`" in {Location}"` appended when `Location` is truthy. -/
def googleSearchTerm (site_name : List String) (RoleKeywords Location : Option String) :
    Option String :=
  if site_name.contains "google" && pyTruthy RoleKeywords then
    let base := RoleKeywords.getD "" ++ " jobs"
    if pyTruthy Location then
      Option.some (base ++ " in " ++ Location.getD "")
    else
      Option.some base
  else
    Option.none

/-- The `scrape_kwargs` dict as first constructed at lines 78-85 (before the
Indeed branch may add `country_indeed`). -/
def scrapeKwargsOf (Boards : List String) (RoleKeywords Location : Option String)
    (ResultCount PostedWithinDays : Int) : ScrapeKwargs :=
  let site_name := normalizeBoards Boards
  { site_name := site_name
    search_term := RoleKeywords
    google_search_term := googleSearchTerm site_name RoleKeywords Location
    location := Location
    results_wanted := ResultCount
    hours_old := PostedWithinDays * 24
    country_indeed := Option.none }

/-- Salary formatting for one raw record, lines 101-105 of the source:
the string `"{min}–{max} {currency} ({interval})"` when both
`min_amount` and `max_amount` are truthy, else `None`. -/
def salaryOf (row : RawListing) : Option String :=
  if row.min_amount.truthy && row.max_amount.truthy then
    Option.some (pyStr row.min_amount ++ "–" ++ pyStr row.max_amount ++ " "
      ++ pyStr row.currency ++ " (" ++ pyStr row.interval ++ ")")
  else
    Option.none

/-- Normalization of one raw record into the uniform schema,
lines 100-119 of the source. -/
def normalizeRow (row : RawListing) : NormalizedListing :=
  { Title := row.title
    Company := row.company
    Location := row.location
    PostedDate := pyStr row.date_posted
    JobType := row.job_type
    ExperienceRange := row.experience_range
    Remote := row.is_remote
    Salary := salaryOf row
    Board := row.site
    JobURL := row.job_url
    CompanyURL := row.company_url }

/-- The result normalizer (the loop at lines 98-119): one normalized
listing per raw record, in order. -/
def resultNormalizer (rows : List RawListing) : List NormalizedListing :=
  rows.map normalizeRow

/-- The returned value, lines 121-124: `Count` is the length of the
normalized list. -/
def buildResult (rows : List RawListing) : ResultSet :=
  { Count := (resultNormalizer rows).length, Jobs := resultNormalizer rows }

/-- The exact message of the `ValueError` raised at lines 89-92. -/
def countryErrMsg : String :=
  "Country is required when using Indeed. Examples: 'us', 'de', 'pk', 'uk'."

/-- The full tool operation (`scrape_jobs_tool`, lines 23-124).  The external
backend capability `scrape_jobs` is passed in as the function `backend`;
the validation failure is the `Except.error` branch. -/
def scrape_jobs_tool (backend : ScrapeKwargs → List RawListing)
    (Boards : List String) (RoleKeywords Location : Option String)
    (ResultCount PostedWithinDays : Int) (Country : Option String) :
    Except String ResultSet :=
  let site_name := normalizeBoards Boards
  let scrape_kwargs := scrapeKwargsOf Boards RoleKeywords Location ResultCount PostedWithinDays
  if site_name.contains "indeed" then
    if !pyTruthy Country then
      Except.error countryErrMsg
    else
      Except.ok (buildResult (backend
        { scrape_kwargs with country_indeed := Option.some (pyLower (Country.getD "")) }))
  else
    Except.ok (buildResult (backend scrape_kwargs))

/-! ### Concrete inputs used to exercise the theorems -/

/-- A backend capability that returns no listings. -/
def emptyBackend : ScrapeKwargs → List RawListing := fun _ => []

/-- A sample raw record: salary minimum only, no maximum. -/
def sampleRow : RawListing :=
  { title := Val.str "Engineer"
    company := Val.str "Acme"
    location := Val.str "Hanoi"
    date_posted := Val.str "2025-01-01"
    job_type := Val.str "fulltime"
    experience_range := Val.none
    is_remote := Val.bool false
    min_amount := Val.int 80000
    max_amount := Val.none
    currency := Val.str "USD"
    interval := Val.str "yearly"
    site := Val.str "linkedin"
    job_url := Val.str "https://example.com/job"
    company_url := Val.none }

/-- A backend capability returning one fixed listing. -/
def oneRowBackend : ScrapeKwargs → List RawListing := fun _ => [sampleRow]

/-- A backend whose answer depends only on whether `hours_old` is 168. -/
def hourProbeBackend : ScrapeKwargs → List RawListing :=
  fun kw => if kw.hours_old = 168 then [] else [sampleRow]

/-- A sample raw record with both salary bounds, currency and interval set
(the worked example of the spec). -/
def salaryRow : RawListing :=
  { sampleRow with
    min_amount := Val.int 80000
    max_amount := Val.int 100000
    currency := Val.str "USD"
    interval := Val.str "yearly" }

/-- A sample raw record with both salary bounds truthy but currency and
interval equal to Python `None`. -/
def c10row : RawListing :=
  { sampleRow with
    min_amount := Val.int 80000
    max_amount := Val.int 100000
    currency := Val.none
    interval := Val.none }

/-! ### Helper lemmas -/

theorem string_append_assoc (a b c : String) : a ++ b ++ c = a ++ (b ++ c) := by
  rcases a with ⟨la⟩
  rcases b with ⟨lb⟩
  rcases c with ⟨lc⟩
  show String.mk (la ++ lb ++ lc) = String.mk (la ++ (lb ++ lc))
  rw [List.append_assoc]

/-! ### Claims -/

/-- C1: whenever the normalized board list contains "indeed" and Country is
absent or empty, `scrape_jobs_tool` fails with the validation error naming
the missing Country field, and the outcome does not depend on the backend
capability at all: no backend call occurs on the error path. -/
theorem c1_validation_before_backend (backend : ScrapeKwargs → List RawListing)
    (Boards : List String) (rk loc : Option String) (rc pwd : Int)
    (country : Option String)
    (hIndeed : (normalizeBoards Boards).contains "indeed" = true)
    (hCountry : country = Option.none ∨ country = Option.some "") :
    scrape_jobs_tool backend Boards rk loc rc pwd country = Except.error countryErrMsg
    ∧ List.isPrefixOf "Country".data countryErrMsg.data = true
    ∧ (∀ backend2 : ScrapeKwargs → List RawListing,
        scrape_jobs_tool backend2 Boards rk loc rc pwd country
          = scrape_jobs_tool backend Boards rk loc rc pwd country) := by
  have hc : pyTruthy country = false := by
    rcases hCountry with h | h <;> subst h <;> decide
  refine ⟨?_, by decide, ?_⟩
  · simp only [scrape_jobs_tool, hIndeed, hc]
    simp
  · intro backend2
    simp only [scrape_jobs_tool, hIndeed, hc]
    simp

/-- Witness for C1 at the concrete request Boards = `["Indeed"]`,
Country absent. -/
theorem c1_witness :
    scrape_jobs_tool emptyBackend ["Indeed"] Option.none Option.none 20 7 Option.none
      = Except.error countryErrMsg :=
  (c1_validation_before_backend emptyBackend ["Indeed"] Option.none Option.none 20 7
    Option.none (by decide) (Or.inl rfl)).1

/-- C2: the Salary of a normalized listing is the formatted string exactly
when both salary bounds are truthy, and null otherwise. -/
theorem c2_salary_rule (row : RawListing) :
    ((normalizeRow row).Salary ≠ Option.none ↔
      (row.min_amount.truthy = true ∧ row.max_amount.truthy = true))
    ∧ (normalizeRow row).Salary =
        (if row.min_amount.truthy && row.max_amount.truthy then
          Option.some (pyStr row.min_amount ++ "–" ++ pyStr row.max_amount ++ " "
            ++ pyStr row.currency ++ " (" ++ pyStr row.interval ++ ")")
        else Option.none) := by
  constructor
  · cases hmin : row.min_amount.truthy <;> cases hmax : row.max_amount.truthy <;>
      simp [normalizeRow, salaryOf, hmin, hmax]
  · rfl

/-- Witness for C2 at the spec's worked example: both bounds present. -/
theorem c2_witness :
    (normalizeRow salaryRow).Salary = Option.some "80000–100000 USD (yearly)" :=
  ((c2_salary_rule salaryRow).2).trans (by decide)

/-- Counterexample to C3: the normalizer keeps both copies of a board given
twice in different casings (no deduplication), and an empty request board
list stays empty (no non-emptiness enforcement). -/
theorem c3_counterexample :
    (¬ (normalizeBoards ["Indeed", "indeed"]).Nodup)
    ∧ normalizeBoards ([] : List String) = [] := by
  constructor
  · decide
  · rfl

/-- C3 (amended): the board list produced is the request's list with each
identifier lowercased, preserving order and multiplicity: duplicates are
kept and the output is empty exactly when the input is. -/
theorem c3_amended (Boards : List String) :
    (normalizeBoards Boards).length = Boards.length
    ∧ (normalizeBoards Boards = [] ↔ Boards = [])
    ∧ ∀ i : Nat, (normalizeBoards Boards)[i]? = (Boards[i]?).map pyLower := by
  refine ⟨List.length_map _ _, ?_, ?_⟩
  · simp [normalizeBoards]
  · intro i
    simp [normalizeBoards]

/-- Witness for C3's amended statement at a concrete duplicated list. -/
theorem c3_witness : (normalizeBoards ["Indeed", "indeed"]).length = 2 :=
  (c3_amended ["Indeed", "indeed"]).1

/-- Counterexample to C4: with the web-search board selected and
roleKeywords present but equal to the empty string, the claim predicts a
synthesized term, yet the code produces none (Python truthiness of the
keyword string, not mere presence, is what is checked). -/
theorem c4_counterexample :
    (normalizeBoards ["Google"]).contains "google" = true
    ∧ (Option.some "" ≠ (Option.none : Option String))
    ∧ googleSearchTerm (normalizeBoards ["Google"]) (Option.some "") Option.none
        = Option.none := by
  refine ⟨by decide, by decide, by decide⟩

/-- C4 (amended): a synthesized term is produced iff "google" is among the
case-folded boards and roleKeywords is present AND non-empty; when produced
it is "(roleKeywords) jobs", with " in (location)" appended exactly when
location is present and non-empty. -/
theorem c4_amended (Boards : List String) (rk loc : Option String) :
    (googleSearchTerm (normalizeBoards Boards) rk loc ≠ Option.none ↔
      ((normalizeBoards Boards).contains "google" = true ∧ pyTruthy rk = true))
    ∧ (∀ s : String, rk = Option.some s → s ≠ "" →
        (normalizeBoards Boards).contains "google" = true →
        googleSearchTerm (normalizeBoards Boards) rk loc =
          Option.some (if pyTruthy loc then s ++ " jobs in " ++ loc.getD ""
            else s ++ " jobs")) := by
  have key : googleSearchTerm (normalizeBoards Boards) rk loc ≠ Option.none ↔
      (((normalizeBoards Boards).contains "google" && pyTruthy rk) = true) := by
    unfold googleSearchTerm
    split
    next hcond =>
      simp only [hcond, iff_true]
      split <;> simp
    next hcond =>
      rw [Bool.not_eq_true] at hcond
      rw [hcond]
      simp
  constructor
  · rw [key, Bool.and_eq_true]
  · intro s hs hne hg
    subst hs
    have hr : pyTruthy (Option.some s) = true := by simp [pyTruthy, hne]
    have h2 : (" jobs" : String) ++ " in " = " jobs in " := by decide
    simp only [googleSearchTerm, hg, hr, Bool.and_self, if_true, Option.getD_some]
    split
    · rw [string_append_assoc s " jobs" " in ", h2]
    · simp

/-- Witness for C4's amended statement at the spec's worked example. -/
theorem c4_witness :
    googleSearchTerm (normalizeBoards ["Google"]) (Option.some "Backend Engineer")
        (Option.some "Hanoi")
      = Option.some "Backend Engineer jobs in Hanoi" :=
  (((c4_amended ["Google"] (Option.some "Backend Engineer") (Option.some "Hanoi")).2
    "Backend Engineer" rfl (by decide) (by decide))).trans (by decide)

/-- C5: the recency value handed to the backend is exactly
PostedWithinDays * 24 hours: the built kwargs carry that value, and the
tool's outcome is unchanged when two backends agree on every kwargs whose
hours_old equals PostedWithinDays * 24 (the backend is only ever invoked
at such kwargs). -/
theorem c5_hours_exact (b1 b2 : ScrapeKwargs → List RawListing)
    (Boards : List String) (rk loc : Option String) (rc pwd : Int)
    (country : Option String)
    (hb : ∀ kw : ScrapeKwargs, kw.hours_old = pwd * 24 → b1 kw = b2 kw) :
    (scrapeKwargsOf Boards rk loc rc pwd).hours_old = pwd * 24
    ∧ scrape_jobs_tool b1 Boards rk loc rc pwd country
        = scrape_jobs_tool b2 Boards rk loc rc pwd country := by
  refine ⟨rfl, ?_⟩
  simp only [scrape_jobs_tool]
  split
  · split
    · rfl
    · rw [hb _ rfl]
  · rw [hb _ rfl]

/-- Witness for C5 at PostedWithinDays = 7: an hours-sensitive backend that
agrees with the empty backend on hours_old = 168 gives the same outcome. -/
theorem c5_witness :
    (scrapeKwargsOf ["Google"] Option.none Option.none 20 7).hours_old = 7 * 24
    ∧ scrape_jobs_tool emptyBackend ["Google"] Option.none Option.none 20 7 Option.none
        = scrape_jobs_tool hourProbeBackend ["Google"] Option.none Option.none 20 7
            Option.none :=
  c5_hours_exact emptyBackend hourProbeBackend ["Google"] Option.none Option.none 20 7
    Option.none
    (fun kw h => by simp only [emptyBackend, hourProbeBackend, h]; norm_num)

/-- C6: every successful output of the tool has Count equal to the length
of its Jobs sequence. -/
theorem c6_count_eq_len (backend : ScrapeKwargs → List RawListing)
    (Boards : List String) (rk loc : Option String) (rc pwd : Int)
    (country : Option String) (r : ResultSet)
    (h : scrape_jobs_tool backend Boards rk loc rc pwd country = Except.ok r) :
    r.Count = r.Jobs.length := by
  simp only [scrape_jobs_tool] at h
  split at h
  · split at h
    · exact Except.noConfusion h
    · injection h with h
      subst h
      rfl
  · injection h with h
    subst h
    rfl

/-- Witness for C6 with a backend returning one listing. -/
theorem c6_witness :
    (buildResult [sampleRow]).Count = (buildResult [sampleRow]).Jobs.length :=
  c6_count_eq_len oneRowBackend [] Option.none Option.none 20 7 Option.none
    (buildResult [sampleRow]) rfl

/-- C7: board casing is irrelevant: requests whose board lists agree up to
case yield identical normalized board lists; every identifier, known or
unknown, is case-folded to lowercase and kept at its position (nothing is
filtered by an allow-list). -/
theorem c7_case_insensitive (B1 B2 : List String)
    (h : B1.map pyLower = B2.map pyLower) :
    normalizeBoards B1 = normalizeBoards B2
    ∧ (∀ i : Nat, (normalizeBoards B1)[i]? = (B1[i]?).map pyLower)
    ∧ (∀ b ∈ B1, pyLower b ∈ normalizeBoards B1) := by
  refine ⟨h, ?_, ?_⟩
  · intro i
    simp [normalizeBoards]
  · intro b hb
    exact List.mem_map_of_mem pyLower hb

/-- Witness for C7 at the spec's example pair of casings. -/
theorem c7_witness :
    normalizeBoards ["LinkedIn"] = normalizeBoards ["linkedin"] :=
  (c7_case_insensitive ["LinkedIn"] ["linkedin"] (by decide)).1

/-- C8: the result normalizer yields exactly one listing per raw record in
the same order; PostedDate is the string coercion of the posting date and
all other fields are copied through under the documented key renaming. -/
theorem c8_fieldwise (rows : List RawListing) :
    (resultNormalizer rows).length = rows.length
    ∧ ∀ i : Nat,
        ((resultNormalizer rows)[i]?).map (fun l =>
          (l.Title, l.Company, l.Location, l.PostedDate, l.JobType, l.ExperienceRange,
           l.Remote, l.Board, l.JobURL, l.CompanyURL))
        = (rows[i]?).map (fun r =>
          (r.title, r.company, r.location, pyStr r.date_posted, r.job_type,
           r.experience_range, r.is_remote, r.site, r.job_url, r.company_url)) := by
  refine ⟨List.length_map _ _, ?_⟩
  intro i
  simp only [resultNormalizer, List.getElem?_map]
  cases rows[i]? <;> rfl

/-- Witness for C8 at a concrete one-record sequence. -/
theorem c8_witness : (resultNormalizer [sampleRow]).length = 1 :=
  (c8_fieldwise [sampleRow]).1

/-- C9: the result normalizer is deterministic and stateless: equal raw
inputs give identical ResultSet outputs. -/
theorem c9_deterministic (rows rows2 : List RawListing) (h : rows = rows2) :
    buildResult rows = buildResult rows2 := by
  rw [h]

/-- Witness for C9 at a concrete input run twice. -/
theorem c9_witness : buildResult [sampleRow] = buildResult [sampleRow] :=
  c9_deterministic [sampleRow] [sampleRow] rfl

/-- C10: when both salary bounds are truthy the salary string is produced
with currency and interval interpolated verbatim, never truthiness-checked:
null currency and interval appear as the text None. -/
theorem c10_currency_unchecked (row : RawListing)
    (hmin : row.min_amount.truthy = true) (hmax : row.max_amount.truthy = true) :
    (normalizeRow row).Salary =
      Option.some (pyStr row.min_amount ++ "–" ++ pyStr row.max_amount ++ " "
        ++ pyStr row.currency ++ " (" ++ pyStr row.interval ++ ")") := by
  simp [normalizeRow, salaryOf, hmin, hmax]

/-- Witness for C10: currency and interval both None still yield a salary
string interpolating the text None. -/
theorem c10_witness :
    (normalizeRow c10row).Salary = Option.some "80000–100000 None (None)" :=
  (c10_currency_unchecked c10row (by decide) (by decide)).trans (by decide)

end JobsSearch
